import Mathlib

/-!
Shallow embedding of the audit-event recorder of the zeo SMS backend:
the event normalizer, risk scorer and persistence writer
(`src/utils/auditLogger.js`) and the admin query surface
(`src/routes/audit_log_api.js`).  JavaScript strings are modelled as
Lean `String`s, with the handful of string primitives the source uses
(substring `includes`, `toLowerCase`, `split`, `trim`, `replace` of a
quote character) re-implemented structurally over the underlying
character lists so that concrete evaluations reduce in the kernel.
Nullable / possibly-absent JavaScript values are `Option`s, and the
source's reliance on string falsiness (`""` is falsy) is modelled
explicitly by the `jsOr*` helpers.
-/

namespace Zeo

/-- `leadsWith needle hay` : `needle` occurs at the start of `hay`
(model of a prefix test on character lists). -/
def leadsWith : List Char → List Char → Bool
  | [], _ => true
  | _ :: _, [] => false
  | a :: as, b :: bs => a == b && leadsWith as bs

/-- `listContains needle hay` : `needle` occurs contiguously in `hay`
(model of JavaScript `String.prototype.includes`). -/
def listContains (needle : List Char) : List Char → Bool
  | [] => needle.isEmpty
  | c :: t => leadsWith needle (c :: t) || listContains needle t

/-- JavaScript `hay.includes(needle)`. -/
def strContains (hay needle : String) : Bool :=
  listContains needle.data hay.data

/-- JavaScript `s.toLowerCase()` (ASCII case folding, which covers every
string the source lowercases). -/
def lowerStr (s : String) : String :=
  ⟨s.data.map Char.toLower⟩

/-- Character membership, used for the CSV special-character test. -/
def hasChar (s : String) (c : Char) : Bool :=
  s.data.contains c

/-- Whitespace as trimmed by `String.prototype.trim` (ASCII subset). -/
def isSpaceChar (c : Char) : Bool :=
  c = ' ' || c = '\t' || c = '\n' || c = '\r'

def dropLeadingSpace : List Char → List Char
  | [] => []
  | c :: t => if isSpaceChar c then dropLeadingSpace t else c :: t

/-- JavaScript `s.trim()`. -/
def trimStr (s : String) : String :=
  ⟨dropLeadingSpace (dropLeadingSpace s.data.reverse).reverse⟩

/-- The characters before the first comma: `s.split(',')[0]`. -/
def beforeComma : List Char → List Char
  | [] => []
  | c :: t => if c = ',' then [] else c :: beforeComma t

/-- JavaScript `Array.prototype.join(sep)`. -/
def joinWith (sep : String) : List String → String
  | [] => ""
  | [a] => a
  | a :: b :: t => a ++ sep ++ joinWith sep (b :: t)

/-- `v || d` for a possibly-absent string: JavaScript treats both
`undefined`/`null` and the empty string as falsy. -/
def jsOr (v : Option String) (d : String) : String :=
  match v with
  | some s => if s = "" then d else s
  | none => d

/-- `v || w` where the fallback is itself possibly absent. -/
def jsOrOpt (v w : Option String) : Option String :=
  match v with
  | some s => if s = "" then w else some s
  | none => w

/-- `v || null`. -/
def jsOrNull (v : Option String) : Option String :=
  jsOrOpt v none

/-- The JavaScript values that the source stores in the free-form
`additional_data` side channel (flat JSON values suffice for the model;
the claims never inspect the serialized text). -/
inductive JsVal where
  | jstr (s : String)
  | jnum (n : Int)
  | jbool (b : Bool)
deriving DecidableEq

/-- JavaScript truthiness of such a value. -/
def jsTruthy : JsVal → Bool
  | .jstr s => !(s == "")
  | .jnum n => !(n == 0)
  | .jbool b => b

def jsonEscapeChar (c : Char) : List Char :=
  if c = '"' then ['\\', '"'] else if c = '\\' then ['\\', '\\'] else [c]

/-- `JSON.stringify` on the modelled values.  In particular a string is
re-quoted, so stringification is not the identity on strings. -/
def jsonStringify : JsVal → String
  | .jstr s => ⟨'"' :: (s.data.map jsonEscapeChar).flatten ++ ['"']⟩
  | .jnum n => toString n
  | .jbool b => if b then "true" else "false"

/-- The caller-supplied `user_roles` field: absent, a pre-joined string,
or an array of role strings (`auditLogger.js` accepts either). -/
inductive RolesVal where
  | absent
  | str (s : String)
  | arr (roles : List String)
deriving DecidableEq

/-- The admin/privileged-access test of `calculateRiskScore`:
`user_roles && (user_roles.includes('SMS_SUPERADM') ||
user_roles.includes('GRP_ADM'))`.  On a string, `includes` is a
substring test; on an array, element membership; `null` and the empty
string are falsy (an empty array is truthy but contains nothing). -/
def rolesAdmin : RolesVal → Bool
  | .absent => false
  | .str s =>
    if s = "" then false
    else strContains s "SMS_SUPERADM" || strContains s "GRP_ADM"
  | .arr l => l.contains "SMS_SUPERADM" || l.contains "GRP_ADM"

/-- The suspicious user-agent test of `calculateRiskScore`:
`ua = user_agent?.toLowerCase() || ''`, then
`ua.includes('bot') || ua.includes('crawler') || ua.includes('spider')
|| ua === 'unknown'`. -/
def uaSuspicious (user_agent : Option String) : Bool :=
  let ua := match user_agent with
    | some s => lowerStr s
    | none => ""
  strContains ua "bot" || strContains ua "crawler" ||
    strContains ua "spider" || ua == "unknown"

/-- `calculateRiskScore` (`src/utils/auditLogger.js` lines 73–105):
four independent additive rules — failed login +10, admin-tier role +5,
suspicious user agent +10, hour outside 06..22 +5 — capped at 100.
The current hour (`new Date().getHours()`, 0..23 server-local) is an
explicit argument. -/
def calculateRiskScore (event_type : String) (user_roles : RolesVal)
    (user_agent : Option String) (hour : Nat) : Nat :=
  let s1 := if event_type = "LOGIN_FAILED" then 10 else 0
  let s2 := if rolesAdmin user_roles then 5 else 0
  let s3 := if uaSuspicious user_agent then 10 else 0
  let s4 := if hour < 6 || hour > 22 then 5 else 0
  min (s1 + s2 + s3 + s4) 100

/-- The request-like object consumed by `extractClientInfo`: every
field the source reads, each possibly absent. -/
structure Req where
  ip : Option String := none
  connectionRemoteAddress : Option String := none
  socketRemoteAddress : Option String := none
  headerXForwardedFor : Option String := none
  headerXRealIp : Option String := none
  headerUserAgent : Option String := none
  method : Option String := none
  path : Option String := none
  originalUrl : Option String := none
deriving DecidableEq

/-- First truthy value of a `||`-chain of possibly-absent strings, with
a final literal default. -/
def firstTruthy : List (Option String) → String → String
  | [], d => d
  | v :: rest, d =>
    match v with
    | some s => if s = "" then firstTruthy rest d else s
    | none => firstTruthy rest d

/-- `header?.split(',')[0]?.trim()` on the proxy-chain header; an
absent header stays absent (optional chaining). -/
def xffFirst (h : Option String) : Option String :=
  h.map (fun s => trimStr ⟨beforeComma s.data⟩)

structure ClientInfo where
  ip_address : String
  user_agent : String
  request_method : String
  request_path : String
deriving DecidableEq

/-- `extractClientInfo` (`src/utils/auditLogger.js` lines 48–66).  The
source's `||` chain for the client IP reads, in order: `req.ip`,
`req.connection?.remoteAddress`, `req.socket?.remoteAddress`, the first
trimmed entry of the `x-forwarded-for` header, the `x-real-ip` header,
then `'unknown'`. -/
def extractClientInfo (req : Req) : ClientInfo :=
  { ip_address := firstTruthy
      [req.ip, req.connectionRemoteAddress, req.socketRemoteAddress,
       xffFirst req.headerXForwardedFor, req.headerXRealIp] "unknown"
    user_agent := jsOr req.headerUserAgent "unknown"
    request_method := jsOr req.method "unknown"
    request_path := firstTruthy [req.path, req.originalUrl] "unknown" }

/-- The loosely-typed event description accepted by `logAuditEvent`:
`event_type` is required, everything else optional. -/
structure AuditData where
  event_type : String
  event_category : Option String := none
  event_description : Option String := none
  userid : Option String := none
  attempted_userid : Option String := none
  user_roles : RolesVal := .absent
  session_id : Option String := none
  success : Option Bool := none
  error_code : Option String := none
  error_message : Option String := none
  additional_data : Option JsVal := none
  server_name : Option String := none
  application_version : Option String := none
  event_timestamp : Option Int := none
deriving DecidableEq

/-- The fully-populated candidate built inside `logAuditEvent` (lines
119–152), risk score included.  The spread of `clientInfo` makes the
four request fields jointly absent or jointly present, captured by a
single `Option ClientInfo`. -/
structure EventData where
  event_type : String
  event_category : String
  event_description : String
  userid : Option String
  attempted_userid : Option String
  user_roles : Option String
  session_id : Option String
  client : Option ClientInfo
  success : Bool
  error_code : Option String
  error_message : Option String
  additional_data : Option String
  server_name : String
  application_version : String
  event_timestamp : Int
  risk_score : Nat
deriving DecidableEq

/-- Ambient runtime inputs of the normalizer: `os.hostname()`,
`process.env.APP_VERSION`, `new Date()` and its hour-of-day. -/
structure Env where
  hostname : String
  appVersionEnv : Option String := none
  now : Int := 0
  hour : Nat := 12
deriving DecidableEq

/-- `Array.isArray(user_roles) ? user_roles.join(',') :
(user_roles || null)`. -/
def normalizeRoles : RolesVal → Option String
  | .arr l => some (joinWith "," l)
  | .str s => if s = "" then none else some s
  | .absent => none

def rolesOfOpt : Option String → RolesVal
  | some s => .str s
  | none => .absent

/-- The defaulting + scoring stage of `logAuditEvent` (lines 116–152):
builds the `eventData` object and sets its `risk_score`.  Pure given
the ambient `Env`. -/
def normalizeEvent (env : Env) (a : AuditData) (req : Option Req) : EventData :=
  let client := req.map extractClientInfo
  let roles := normalizeRoles a.user_roles
  { event_type := a.event_type
    event_category := jsOr a.event_category "AUTH"
    event_description := jsOr a.event_description (a.event_type ++ " event")
    userid := jsOrNull a.userid
    attempted_userid := jsOrNull (jsOrOpt a.attempted_userid a.userid)
    user_roles := roles
    session_id := jsOrNull a.session_id
    client := client
    success := a.success.getD false
    error_code := jsOrNull a.error_code
    error_message := jsOrNull a.error_message
    additional_data := match a.additional_data with
      | some v => if jsTruthy v then some (jsonStringify v) else none
      | none => none
    server_name := jsOr a.server_name env.hostname
    application_version := jsOr a.application_version (jsOr env.appVersionEnv "1.0.0")
    event_timestamp := a.event_timestamp.getD env.now
    risk_score := calculateRiskScore a.event_type (rolesOfOpt roles)
      (client.map (·.user_agent)) env.hour }

/-- What the store returns for the single-row `INSERT ... RETURNING id,
event_timestamp`: either the returned row, or any runtime failure
(unreachable store, rejected row, ...). -/
structure DbRow where
  id : Nat
  event_timestamp : Int
deriving DecidableEq

inductive DbOutcome where
  | ok (row : DbRow)
  | failure (msg : String)
deriving DecidableEq

structure LogResult where
  id : Nat
  timestamp : Int
  event : EventData
deriving DecidableEq

/-- `logAuditEvent` (`src/utils/auditLogger.js` lines 113–208).  The
whole body sits in a `try`; the `catch` logs and returns `null`.  The
normalization stage is total, so the only failure source is the store,
whose behaviour is the explicit `db` argument.  The function is total
into `Option`: it cannot throw. -/
def logAuditEvent (env : Env) (a : AuditData) (req : Option Req)
    (db : DbOutcome) : Option LogResult :=
  let ed := normalizeEvent env a req
  match db with
  | .ok row => some { id := row.id, timestamp := row.event_timestamp, event := ed }
  | .failure _ => none

/-! ### Admin query surface (`src/routes/audit_log_api.js`) -/

/-- One persisted `public.audit_log` row, restricted to the columns the
query surface reads. -/
structure LogRow where
  id : Nat
  event_type : String
  event_category : String := "AUTH"
  event_description : String := ""
  userid : Option String := none
  attempted_userid : Option String := none
  success : Bool := false
  ip_address : Option String := none
  user_agent : Option String := none
  error_message : Option String := none
  risk_score : Int := 0
  event_timestamp : Int := 0
deriving DecidableEq

/-- `column ILIKE '%' || pat || '%'` : case-insensitive substring test
against a nullable column; a NULL column never matches. -/
def colLike (col : Option String) (pat : String) : Bool :=
  match col with
  | some s => strContains (lowerStr s) (lowerStr pat)
  | none => false

/-- The query-string filter parameters of `GET /audit-logs` (dates and
the minimum risk score already parsed to integers, as `new Date(...)` /
`parseInt` do upstream of the SQL).  `success` stays the raw string:
the handler compares it with `=== 'true'` itself. -/
structure ListQuery where
  event_type : Option String := none
  userid : Option String := none
  success : Option String := none
  start_date : Option Int := none
  end_date : Option Int := none
  ip_address : Option String := none
  risk_score_min : Option Int := none
  search : Option String := none
deriving DecidableEq

/-- The WHERE clause built by the List handler (lines 52–110): each
condition is appended only when its parameter is supplied — truthy for
the string parameters, `!== undefined` for `success`. -/
def rowMatchesList (q : ListQuery) (r : LogRow) : Bool :=
  (match q.event_type with
   | some t => if t = "" then true else r.event_type == t
   | none => true) &&
  (match q.userid with
   | some u => if u = "" then true
       else colLike r.userid u || colLike r.attempted_userid u
   | none => true) &&
  (match q.success with
   | some v => r.success == decide (v = "true")
   | none => true) &&
  (match q.start_date with
   | some d => decide (d ≤ r.event_timestamp)
   | none => true) &&
  (match q.end_date with
   | some d => decide (r.event_timestamp ≤ d)
   | none => true) &&
  (match q.ip_address with
   | some p => if p = "" then true else colLike r.ip_address p
   | none => true) &&
  (match q.risk_score_min with
   | some m => decide (m ≤ r.risk_score)
   | none => true) &&
  (match q.search with
   | some s => if s = "" then true else
       colLike (some r.event_description) s || colLike r.userid s ||
       colLike r.attempted_userid s || colLike r.error_message s ||
       colLike r.user_agent s
   | none => true)

/-- The WHERE clause built by the export handler (lines 367–389): it
reads only `start_date`, `end_date` and `event_type` from the query
string — none of the other List filters. -/
def exportRowMatches (q : ListQuery) (r : LogRow) : Bool :=
  (match q.start_date with
   | some d => decide (d ≤ r.event_timestamp)
   | none => true) &&
  (match q.end_date with
   | some d => decide (r.event_timestamp ≤ d)
   | none => true) &&
  (match q.event_type with
   | some t => if t = "" then true else r.event_type == t
   | none => true)

/-- `ORDER BY event_timestamp DESC`. -/
def tsGe (a b : LogRow) : Prop :=
  b.event_timestamp ≤ a.event_timestamp

instance : DecidableRel tsGe :=
  fun a b => inferInstanceAs (Decidable (b.event_timestamp ≤ a.event_timestamp))

/-- The row set produced by `GET /audit-logs/export`: filter, order by
event time descending, `LIMIT 10000`. -/
def exportRows (q : ListQuery) (table : List LogRow) : List LogRow :=
  (List.insertionSort tsGe (table.filter (exportRowMatches q))).take 10000

/-- One day in the millisecond timeline the model uses for timestamps. -/
def dayMs : Int := 86400000

/-- `POST /audit-logs/cleanup` (lines 311–337): the retention age is
floored at 30 days (`Math.max(30, parseInt(days))`), then every row
with `event_timestamp < NOW() - daysNum days` is deleted; the response
carries the deleted-row count (`result.rowCount`). -/
def cleanupRetention (requestedDays : Int) (now : Int) (table : List LogRow) :
    List LogRow × Nat :=
  let daysNum := max 30 requestedDays
  let cutoff := now - daysNum * dayMs
  let deleted := table.filter (fun r => decide (r.event_timestamp < cutoff))
  let remaining := table.filter (fun r => decide (cutoff ≤ r.event_timestamp))
  (remaining, deleted.length)

/-- `s.replace(/"/g, '""')` : every double-quote character becomes two. -/
def doubleQuote : List Char → List Char
  | [] => []
  | c :: t => if c = '"' then '"' :: '"' :: doubleQuote t else c :: doubleQuote t

/-- The per-cell CSV escaping of the export handler (lines 432–441):
NULL becomes the empty cell; a value containing a comma, double quote
or newline is wrapped in double quotes with embedded quotes doubled;
any other value is emitted unchanged. -/
def escapeCsvValue (v : Option String) : String :=
  match v with
  | none => ""
  | some s =>
    if hasChar s ',' || hasChar s '"' || hasChar s '\n' then
      "\"" ++ (⟨doubleQuote s.data⟩ : String) ++ "\""
    else s

/-- The two identity headers read by `requireAdmin`. -/
structure AdminHeaders where
  xUserRole : Option String := none
  xUserId : Option String := none
deriving DecidableEq

inductive AdminGate where
  | rejected
  | allowed (adminUser : Option String)
deriving DecidableEq

/-- `requireAdmin` (lines 15–26): reject with 403 when the role header
is falsy or does not contain `'SMS_SUPERADM'`; otherwise pass through,
stashing the (unchecked) `x-user-id` header as `req.adminUser`. -/
def requireAdmin (h : AdminHeaders) : AdminGate :=
  match h.xUserRole with
  | none => .rejected
  | some role =>
    if role = "" then .rejected
    else if strContains role "SMS_SUPERADM" then .allowed h.xUserId
    else .rejected

/-- A gated endpoint: the middleware runs before the handler, so a
rejected request returns the 403 error body without the handler ever
touching the store. -/
def runGated {α : Type} (h : AdminHeaders) (handler : List LogRow → α)
    (table : List LogRow) : Except String α :=
  match requireAdmin h with
  | .rejected => .error "Administrative access required"
  | .allowed _ => .ok (handler table)

/-- The source-IP precedence exactly as the spec (§4.1) words it: first
populated of — proxy-chain header (first entry), real-IP header, the
socket-level addresses — else "unknown".  Stated from the spec, to be
compared with `extractClientInfo`. -/
def specClientIP (req : Req) : String :=
  firstTruthy
    [xffFirst req.headerXForwardedFor, req.headerXRealIp,
     req.ip, req.connectionRemoteAddress, req.socketRemoteAddress] "unknown"

/-! ### Auxiliary definitions for the claims -/

/-- An absent-or-empty (falsy) optional string. -/
def strFalsy : Option String → Prop
  | some s => s = ""
  | none => True

/-- An event description with only `event_type` set. -/
def onlyType (et : String) : AuditData :=
  { event_type := et }

/-- Reading the defaulted `eventData` object back as a caller-supplied
event description, key by key, the way a second `logAuditEvent` call on
that object would.  (The already-serialized `additional_data` string
comes back as a string value; the request-context fields are not read
back — the builder only ever takes them from a fresh `req`.) -/
def toAuditData (n : EventData) : AuditData :=
  { event_type := n.event_type
    event_category := some n.event_category
    event_description := some n.event_description
    userid := n.userid
    attempted_userid := n.attempted_userid
    user_roles := rolesOfOpt n.user_roles
    session_id := n.session_id
    success := some n.success
    error_code := n.error_code
    error_message := n.error_message
    additional_data := n.additional_data.map .jstr
    server_name := some n.server_name
    application_version := some n.application_version
    event_timestamp := some n.event_timestamp }

/-- Runtime context of the C3 scenario: 10am server-local time. -/
def c3Env : Env :=
  { hostname := "sms-host", now := 1000, hour := 10 }

/-- The C3 scenario request: a normal browser user agent. -/
def c3Req : Req :=
  { ip := some "198.51.100.7", headerUserAgent := some "Mozilla/5.0",
    method := some "POST", path := some "/api/login" }

/-- The C3 scenario event: successful login for "bob" with roles
`["ADMIN","USER"]`. -/
def c3Audit : AuditData :=
  { event_type := "LOGIN_SUCCESS", userid := some "bob",
    attempted_userid := some "bob", user_roles := .arr ["ADMIN", "USER"],
    success := some true }

/-- A request carrying both a socket-level address and proxy headers. -/
def c4Req : Req :=
  { connectionRemoteAddress := some "10.0.0.1",
    headerXForwardedFor := some "1.2.3.4, 9.9.9.9",
    headerXRealIp := some "5.6.7.8" }

/-- A row from well within the last 30 days (1000 ms before `now = 0`). -/
def c6recent : LogRow :=
  { id := 1, event_type := "LOGIN_SUCCESS", event_timestamp := -1000 }

/-- A row far older than 30 days. -/
def c6old : LogRow :=
  { id := 2, event_type := "LOGIN_FAILED", event_timestamp := -1000000000000 }

/-- A failed-login row. -/
def c8Row : LogRow :=
  { id := 1, event_type := "LOGIN_FAILED", success := false,
    userid := some "bob", event_timestamp := 500 }

/-- An export request that supplies the List operation's success
filter. -/
def c8Query : ListQuery :=
  { success := some "true" }

/-- A row used to exercise the unfiltered export path. -/
def c8wRow : LogRow :=
  { id := 7, event_type := "LOGOUT", event_timestamp := 42 }

/-! ### Helper lemmas -/

lemma firstTruthy_cons_of_falsy {v : Option String} (hv : strFalsy v)
    (rest : List (Option String)) (d : String) :
    firstTruthy (v :: rest) d = firstTruthy rest d := by
  cases v with
  | none => rfl
  | some s =>
    simp only [strFalsy] at hv
    simp [firstTruthy, hv]

lemma firstTruthy_cons_of_truthy {s : String} (hs : s ≠ "")
    (rest : List (Option String)) (d : String) :
    firstTruthy (some s :: rest) d = s := by
  simp [firstTruthy, hs]

lemma append_event_ne_empty (s : String) : s ++ " event" ≠ "" := by
  intro h
  have h2 : (s ++ " event").data = ([] : List Char) := by rw [h]
  have h3 : (s ++ " event").data = s.data ++ (" event").data := by
    cases s; rfl
  rw [h3] at h2
  rcases List.append_eq_nil.mp h2 with ⟨-, h4⟩
  exact absurd h4 (by decide)

lemma length_filter_split (cutoff : Int) (l : List LogRow) :
    (l.filter (fun r => decide (r.event_timestamp < cutoff))).length
  + (l.filter (fun r => decide (cutoff ≤ r.event_timestamp))).length
  = l.length := by
  induction l with
  | nil => rfl
  | cons a t ih =>
    simp only [List.filter_cons]
    by_cases h : a.event_timestamp < cutoff
    · have h2 : ¬ cutoff ≤ a.event_timestamp := not_le.mpr h
      simp [h, h2, List.length_cons]
      omega
    · have h2 : cutoff ≤ a.event_timestamp := not_lt.mp h
      simp [h, h2, List.length_cons]
      omega

/-! ### Claim theorems -/

/-- C1: for every audit-event description, request context and store
behaviour, `logAuditEvent` is total (it never throws): when the store
returns a row it yields the generated id and the returned insertion
timestamp together with the normalized event, and on any store failure
it yields the `none` sentinel instead of propagating the error. -/
theorem logAuditEvent_never_throws_c1 (env : Env) (a : AuditData)
    (req : Option Req) :
    (∀ row, logAuditEvent env a req (.ok row) =
        some ⟨row.id, row.event_timestamp, normalizeEvent env a req⟩)
  ∧ (∀ msg, logAuditEvent env a req (.failure msg) = none) :=
  ⟨fun _ => rfl, fun _ => rfl⟩

/-- C2: the risk scorer is the sum of the four independent additive
rules — failed-login type +10, admin-tier role marker +5, suspicious
user agent +10, server-local hour outside 06..22 +5 — clamped to at
most 100, hence always in [0,100]; and the failed-login / no-roles /
"curl/7.68.0" / 2am scenario scores exactly 15. -/
theorem calculateRiskScore_additive_capped_c2 :
    (∀ et roles ua hour, calculateRiskScore et roles ua hour =
       min ((if et = "LOGIN_FAILED" then 10 else 0)
          + (if rolesAdmin roles then 5 else 0)
          + (if uaSuspicious ua then 10 else 0)
          + (if hour < 6 || hour > 22 then 5 else 0)) 100)
  ∧ (∀ et roles ua hour, calculateRiskScore et roles ua hour ≤ 100)
  ∧ calculateRiskScore "LOGIN_FAILED" .absent (some "curl/7.68.0") 2 = 15 := by
  refine ⟨fun _ _ _ _ => rfl, fun et roles ua hour => ?_, by decide⟩
  exact Nat.min_le_right _ _

/-- C3 counterexample: the claimed scenario — successful login with
roles `["ADMIN","USER"]`, hour 10, browser user agent — does NOT score
5: the admin rule matches only the substrings `SMS_SUPERADM` /
`GRP_ADM`, and `"ADMIN,USER"` contains neither. -/
theorem adminTierRoles_score_c3_cex :
    (normalizeEvent c3Env c3Audit (some c3Req)).risk_score ≠ 5 := by decide

/-- C3 (amended): that scenario scores exactly 0, because `ADMIN` is
not one of the admin-tier markers (`SMS_SUPERADM`, `GRP_ADM`) the
scorer matches; the same event with roles `["GRP_ADM","USER"]` does
score 5 from the admin-tier rule. -/
theorem adminTierRoles_score_c3_amended :
    (normalizeEvent c3Env c3Audit (some c3Req)).risk_score = 0
  ∧ (normalizeEvent c3Env
      { c3Audit with user_roles := .arr ["GRP_ADM", "USER"] }
      (some c3Req)).risk_score = 5 := by decide

/-- C4 counterexample: on a request carrying both a socket-level
address and proxy headers, the claimed precedence (headers first) picks
"1.2.3.4", but the code picks the socket-level "10.0.0.1": the code's
`||` chain tries the socket-level addresses BEFORE the headers. -/
theorem clientIP_precedence_c4_cex :
    specClientIP c4Req = "1.2.3.4"
  ∧ (extractClientInfo c4Req).ip_address = "10.0.0.1"
  ∧ (extractClientInfo c4Req).ip_address ≠ specClientIP c4Req := by decide

/-- C4 (amended): the extracted source IP is the first populated of —
`req.ip`, the connection-level remote address, the socket-level remote
address, THEN the proxy-chain header's first (trimmed) entry, then the
real-IP header, and "unknown" if none is populated; the user agent is
the user-agent header or "unknown", and method/path come from the
request line (path falling back to the original URL) or "unknown". -/
theorem extractClientInfo_precedence_c4 (req : Req) :
    (extractClientInfo req).user_agent = jsOr req.headerUserAgent "unknown"
  ∧ (extractClientInfo req).request_method = jsOr req.method "unknown"
  ∧ (extractClientInfo req).request_path
      = firstTruthy [req.path, req.originalUrl] "unknown"
  ∧ (∀ s, req.ip = some s → s ≠ "" →
      (extractClientInfo req).ip_address = s)
  ∧ (strFalsy req.ip →
      ∀ s, req.connectionRemoteAddress = some s → s ≠ "" →
        (extractClientInfo req).ip_address = s)
  ∧ (strFalsy req.ip → strFalsy req.connectionRemoteAddress →
      ∀ s, req.socketRemoteAddress = some s → s ≠ "" →
        (extractClientInfo req).ip_address = s)
  ∧ (strFalsy req.ip → strFalsy req.connectionRemoteAddress →
      strFalsy req.socketRemoteAddress →
      ∀ h, req.headerXForwardedFor = some h →
        trimStr ⟨beforeComma h.data⟩ ≠ "" →
        (extractClientInfo req).ip_address = trimStr ⟨beforeComma h.data⟩)
  ∧ (strFalsy req.ip → strFalsy req.connectionRemoteAddress →
      strFalsy req.socketRemoteAddress →
      strFalsy (xffFirst req.headerXForwardedFor) →
      ∀ s, req.headerXRealIp = some s → s ≠ "" →
        (extractClientInfo req).ip_address = s)
  ∧ (strFalsy req.ip → strFalsy req.connectionRemoteAddress →
      strFalsy req.socketRemoteAddress →
      strFalsy (xffFirst req.headerXForwardedFor) →
      strFalsy req.headerXRealIp →
      (extractClientInfo req).ip_address = "unknown") := by
  refine ⟨rfl, rfl, rfl, ?_, ?_, ?_, ?_, ?_, ?_⟩
  · intro s hs hne
    show firstTruthy _ _ = s
    rw [hs, firstTruthy_cons_of_truthy hne]
  · intro h1 s hs hne
    show firstTruthy _ _ = s
    rw [firstTruthy_cons_of_falsy h1, hs, firstTruthy_cons_of_truthy hne]
  · intro h1 h2 s hs hne
    show firstTruthy _ _ = s
    rw [firstTruthy_cons_of_falsy h1, firstTruthy_cons_of_falsy h2, hs,
      firstTruthy_cons_of_truthy hne]
  · intro h1 h2 h3 h hh hne
    show firstTruthy _ _ = _
    rw [firstTruthy_cons_of_falsy h1, firstTruthy_cons_of_falsy h2,
      firstTruthy_cons_of_falsy h3]
    have hx : xffFirst req.headerXForwardedFor
        = some (trimStr ⟨beforeComma h.data⟩) := by
      rw [hh]; rfl
    rw [hx, firstTruthy_cons_of_truthy hne]
  · intro h1 h2 h3 h4 s hs hne
    show firstTruthy _ _ = s
    rw [firstTruthy_cons_of_falsy h1, firstTruthy_cons_of_falsy h2,
      firstTruthy_cons_of_falsy h3, firstTruthy_cons_of_falsy h4, hs,
      firstTruthy_cons_of_truthy hne]
  · intro h1 h2 h3 h4 h5
    show firstTruthy _ _ = _
    rw [firstTruthy_cons_of_falsy h1, firstTruthy_cons_of_falsy h2,
      firstTruthy_cons_of_falsy h3, firstTruthy_cons_of_falsy h4,
      firstTruthy_cons_of_falsy h5]
    rfl

/-- C4 witness: with only the proxy-chain header populated, the first
trimmed entry is extracted. -/
theorem extractClientInfo_precedence_c4_witness :
    (extractClientInfo { headerXForwardedFor := some " 1.2.3.4 ,9.9.9.9" }
      : ClientInfo).ip_address = "1.2.3.4" := by
  have h := (extractClientInfo_precedence_c4
    { headerXForwardedFor := some " 1.2.3.4 ,9.9.9.9" }).2.2.2.2.2.2.1
  have h2 := h trivial trivial trivial " 1.2.3.4 ,9.9.9.9" rfl (by decide)
  rw [h2]
  decide

/-- C5: normalizing an event description with only `event_type` set
applies every documented default exactly once — category "AUTH" (the
authentication category), description `event_type ++ " event"`, the
current time, the runtime hostname, the configured-or-"1.0.0" app
version — and normalization is idempotent on that defaulted output
under the same runtime context. -/
theorem normalize_defaults_idempotent_c5 (env : Env) (et : String) :
    (normalizeEvent env (onlyType et) none).event_category = "AUTH"
  ∧ (normalizeEvent env (onlyType et) none).event_description = et ++ " event"
  ∧ (normalizeEvent env (onlyType et) none).event_timestamp = env.now
  ∧ (normalizeEvent env (onlyType et) none).server_name = env.hostname
  ∧ (normalizeEvent env (onlyType et) none).application_version
      = jsOr env.appVersionEnv "1.0.0"
  ∧ normalizeEvent env (toAuditData (normalizeEvent env (onlyType et) none)) none
      = normalizeEvent env (onlyType et) none := by
  refine ⟨rfl, rfl, rfl, rfl, rfl, ?_⟩
  simp [normalizeEvent, toAuditData, onlyType, jsOr, jsOrOpt, jsOrNull,
    normalizeRoles, rolesOfOpt, append_event_ne_empty et]

/-- C6: the cleanup operation's effective retention is `max 30
requested` days — so a 5-day request acts as 30 — no row whose event
time is within the last 30 days is ever deleted, and the returned
deleted-row count plus the surviving rows account for the whole
table. -/
theorem cleanupRetention_floor_c6 (requestedDays now : Int)
    (table : List LogRow) :
    cleanupRetention requestedDays now table
      = cleanupRetention (max 30 requestedDays) now table
  ∧ (∀ r ∈ table, now - 30 * dayMs ≤ r.event_timestamp →
      r ∈ (cleanupRetention requestedDays now table).1)
  ∧ (cleanupRetention requestedDays now table).2
      + (cleanupRetention requestedDays now table).1.length = table.length := by
  refine ⟨?_, ?_, ?_⟩
  · show cleanupRetention requestedDays now table = _
    unfold cleanupRetention
    rw [← max_assoc, max_self]
  · intro r hr hrecent
    unfold cleanupRetention
    simp only []
    rw [List.mem_filter]
    refine ⟨hr, ?_⟩
    rw [decide_eq_true_eq]
    have h30 : (30 : Int) ≤ max 30 requestedDays := le_max_left _ _
    unfold dayMs at hrecent ⊢
    omega
  · exact length_filter_split _ _

/-- C6 witness: a 5-day request does not delete a row from 1 second
ago. -/
theorem cleanupRetention_floor_c6_witness :
    c6recent ∈ (cleanupRetention 5 0 [c6recent, c6old]).1 :=
  (cleanupRetention_floor_c6 5 0 [c6recent, c6old]).2.1 c6recent
    (by decide) (by decide)

/-- C7: a CSV cell without comma, double quote or newline is emitted
unchanged; otherwise it is wrapped in double quotes with every embedded
double quote doubled — in particular `New York, NY` becomes
`"New York, NY"` and `say "hi"` becomes `"say ""hi"""`. -/
theorem escapeCsvValue_quoting_c7 (s : String) :
    (hasChar s ',' = false → hasChar s '"' = false → hasChar s '\n' = false →
      escapeCsvValue (some s) = s)
  ∧ ((hasChar s ',' || hasChar s '"' || hasChar s '\n') = true →
      escapeCsvValue (some s) = "\"" ++ (⟨doubleQuote s.data⟩ : String) ++ "\"")
  ∧ escapeCsvValue (some "New York, NY") = "\"New York, NY\""
  ∧ escapeCsvValue (some "say \"hi\"") = "\"say \"\"hi\"\"\"" := by
  refine ⟨?_, ?_, by decide, by decide⟩
  · intro h1 h2 h3
    simp [escapeCsvValue, h1, h2, h3]
  · intro h
    simp [escapeCsvValue, h]

/-- C7 witness: a plain value passes through unchanged. -/
theorem escapeCsvValue_quoting_c7_witness :
    escapeCsvValue (some "abc") = "abc" :=
  (escapeCsvValue_quoting_c7 "abc").1 (by decide) (by decide) (by decide)

/-- C8 counterexample: a failed-login row is excluded by the List
filter for `success=true` but still matched — and returned — by the
export operation, whose WHERE clause reads only the date range and
event type: the export filter surface is NOT the List surface minus
pagination. -/
theorem export_filter_surface_c8_cex :
    rowMatchesList c8Query c8Row = false
  ∧ exportRowMatches c8Query c8Row = true
  ∧ exportRows c8Query [c8Row] = [c8Row] := by decide

/-- C8 (amended): the export operation filters only by event type
(exact) and the inclusive time range — the user-id, success, source-IP,
risk-score and free-text filters of the List operation are ignored —
and it returns at most 10,000 rows, each of them a table row matching
the export filter. -/
theorem export_filters_cap_c8 (q : ListQuery) (table : List LogRow) :
    (∀ r, exportRowMatches q r =
      exportRowMatches
        { start_date := q.start_date, end_date := q.end_date,
          event_type := q.event_type } r)
  ∧ (exportRows q table).length ≤ 10000
  ∧ (∀ r, r ∈ exportRows q table → r ∈ table ∧ exportRowMatches q r = true) := by
  refine ⟨fun _ => rfl, ?_, ?_⟩
  · exact List.length_take_le _ _
  · intro r hr
    have h1 : r ∈ List.insertionSort tsGe (table.filter (exportRowMatches q)) :=
      List.take_subset _ _ hr
    have h2 : r ∈ table.filter (exportRowMatches q) :=
      (List.perm_insertionSort tsGe _).mem_iff.mp h1
    have h3 := List.mem_filter.mp h2
    exact ⟨h3.1, h3.2⟩

/-- C8 witness: an exported row comes from the table and matches the
export filter. -/
theorem export_filters_cap_c8_witness :
    c8wRow ∈ ([c8wRow] : List LogRow) ∧ exportRowMatches {} c8wRow = true :=
  (export_filters_cap_c8 {} [c8wRow]).2.2 c8wRow (by decide)

/-- C9 counterexample: a request whose role header contains the
superadmin marker is admitted even though the caller-id header is
absent — `requireAdmin` never checks `x-user-id`, so "both identity
headers required" is false. -/
theorem requireAdmin_userid_unchecked_c9_cex :
    requireAdmin { xUserRole := some "SMS_SUPERADM", xUserId := none }
      = .allowed none
  ∧ requireAdmin { xUserRole := some "SMS_SUPERADM", xUserId := none }
      ≠ .rejected := by decide

/-- C9 (amended): every gated operation of the admin query surface is
rejected with the administrative-access error — without the handler
touching the store — unless the role header is supplied, non-empty and
contains the superadmin marker `SMS_SUPERADM`; the caller-id header is
read but never checked. -/
theorem requireAdmin_gate_c9 {α : Type} (h : AdminHeaders)
    (f : List LogRow → α) (table : List LogRow) :
    (h.xUserRole = none →
      runGated h f table = .error "Administrative access required")
  ∧ (∀ role, h.xUserRole = some role → strContains role "SMS_SUPERADM" = false →
      runGated h f table = .error "Administrative access required")
  ∧ (∀ role, h.xUserRole = some role → role ≠ "" →
      strContains role "SMS_SUPERADM" = true →
      runGated h f table = .ok (f table)) := by
  refine ⟨?_, ?_, ?_⟩
  · intro hr
    simp [runGated, requireAdmin, hr]
  · intro role hr hc
    by_cases he : role = ""
    · simp [runGated, requireAdmin, hr, he]
    · simp [runGated, requireAdmin, hr, he, hc]
  · intro role hr hne hc
    simp [runGated, requireAdmin, hr, hne, hc]

/-- C9 witness: a superadmin role header admits the request and runs
the handler. -/
theorem requireAdmin_gate_c9_witness :
    runGated { xUserRole := some "SMS_SUPERADM", xUserId := some "u1" }
      (fun t => t.length) ([] : List LogRow) = .ok 0 :=
  (requireAdmin_gate_c9 { xUserRole := some "SMS_SUPERADM", xUserId := some "u1" }
    (fun t => t.length) []).2.2 "SMS_SUPERADM" rfl (by decide) (by decide)

/-- C10: when the success parameter is supplied, a row matches exactly
when its boolean equals `param === "true"` — only the exact lowercase
string "true" selects succeeded events, and any other supplied value
("True", "1", "yes", ...) selects failed events instead of being
rejected. -/
theorem success_filter_strict_c10 (v : String) (r : LogRow) :
    (v = "true" →
      (rowMatchesList { success := some v } r = true ↔ r.success = true))
  ∧ (v ≠ "true" →
      (rowMatchesList { success := some v } r = true ↔ r.success = false))
  ∧ rowMatchesList { success := some "True" }
      { id := 1, event_type := "E", success := false } = true
  ∧ rowMatchesList { success := some "1" }
      { id := 1, event_type := "E", success := false } = true
  ∧ rowMatchesList { success := some "yes" }
      { id := 1, event_type := "E", success := false } = true := by
  refine ⟨?_, ?_, by decide, by decide, by decide⟩
  · intro hv
    subst hv
    simp [rowMatchesList]
  · intro hv
    simp [rowMatchesList, hv]

/-- C10 witness: the capitalized string "True" selects failed rows. -/
theorem success_filter_strict_c10_witness :
    rowMatchesList { success := some "True" }
      { id := 2, event_type := "LOGIN_FAILED", success := false } = true :=
  ((success_filter_strict_c10 "True"
      { id := 2, event_type := "LOGIN_FAILED", success := false }).2.1
    (by decide)).mpr rfl

end Zeo
